import Mathlib

/-!
Verification of the PDF converter (streamlit_code.py).

The program converts one uploaded PDF into plain text, a spreadsheet of
extracted tables, or a word-processing document.  We shallowly embed the
conversion functions and the button handler over a model of what the two
parsing libraries report for a document:

  - a parsed document is a list of pages, each carrying the text that
    fitz (PyMuPDF) extracts for it and the list of tables that pdfplumber
    detects on it, a table being a list of rows of string cells;
  - a document also carries optional error values for the two libraries:
    when present, opening or parsing the document with that library raises
    an exception with that message, which the converters catch;
  - the streamlit message calls (st.error, st.warning, st.info, st.success)
    are modelled as a list of emitted messages;
  - pandas DataFrames are modelled by their column-name list and their rows
    of optional cells (none is the missing-value marker NaN).
-/

set_option maxHeartbeats 1000000

/-- One page of the parsed PDF: its extracted text and its detected tables. -/
structure Page where
  text : String
  tables : List (List (List String))
deriving DecidableEq

/-- A parsed PDF document.  The pages hold what the libraries report;
the two error fields model an exception raised by fitz.open or by
pdfplumber.open (and the subsequent per-page calls) respectively. -/
structure PDFDoc where
  pages : List Page
  fitz_err : Option String
  plumber_err : Option String
deriving DecidableEq

/-- A streamlit UI message, as emitted by st.error, st.warning, st.info
and st.success in the source. -/
inductive Msg where
  | error (s : String)
  | warning (s : String)
  | info (s : String)
  | success (s : String)
deriving DecidableEq

def Msg.isError : Msg → Bool
  | .error _ => true
  | _ => false

def Msg.isSuccess : Msg → Bool
  | .success _ => true
  | _ => false

/-- Default page used for the (never reached) out-of-range case of
indexed page access inside the extraction loops. -/
def dfltPage : Page := { text := "", tables := [] }

/-- The loop of convert_to_text: for page_num in range(len(pdf_document)),
append page.get_text() to the accumulated string. -/
def extractedText (d : PDFDoc) : String :=
  (List.range d.pages.length).foldl
    (fun acc i => acc ++ (d.pages.getD i dfltPage).text) ""

/-- Embedding of convert_to_text (streamlit_code.py lines 20-31): returns
the concatenated page text, or None after showing an error when fitz
raises. -/
def convert_to_text (d : PDFDoc) : Option String × List Msg :=
  match d.fitz_err with
  | some e => (none, [Msg.error ("Failed to extract text: " ++ e)])
  | none => (some (extractedText d), [])

/-- A pandas DataFrame: ordered column names and rows of optional cells
(none models NaN, the missing-value marker). -/
structure DataFrame where
  columns : List String
  rows : List (List (Option String))
deriving DecidableEq

/-- Python truthiness test of line 44: the guard "if table and table[0]"
holds when the table is a nonempty list whose first row is nonempty. -/
def truthyTable (t : List (List String)) : Bool :=
  !t.isEmpty && !(t.headD []).isEmpty

/-- The call pd.DataFrame(table[1:], columns=table[0]) of line 46: the
first row becomes the column names (verbatim, no deduplication), the
remaining rows become the data rows. -/
def pd_DataFrame_of_table (t : List (List String)) : DataFrame :=
  { columns := t.headD [], rows := t.tail.map (fun r => r.map some) }

/-- All tables reported by pdfplumber, in page order then in within-page
detection order (the two nested for loops of lines 41-43). -/
def detectedTables (d : PDFDoc) : List (List (List String)) :=
  d.pages.flatMap Page.tables

/-- The all_tables list built by lines 38-46: every detected table that
passes the truthiness guard, turned into a DataFrame. -/
def all_tables (d : PDFDoc) : List DataFrame :=
  ((detectedTables d).filter truthyTable).map pd_DataFrame_of_table

/-- Index of the first occurrence of a column name in a header list. -/
def firstIdx : List String → String → Option Nat
  | [], _ => none
  | c :: cs, x => if c = x then some 0 else (firstIdx cs x).map (· + 1)

/-- Union of two column-name lists in order of first appearance, the
column alignment pandas performs for a concat along rows. -/
def unionCols (cs ds : List String) : List String :=
  cs ++ ds.filter (fun c => !cs.contains c)

/-- Reindexing of one row from a frame with columns orig to the aligned
column list target: a column present in orig keeps its value, a column
absent from orig is filled with the missing-value marker none. -/
def alignRow (orig target : List String) (r : List (Option String)) : List (Option String) :=
  target.map (fun c =>
    match firstIdx orig c with
    | some i => r.getD i none
    | none => none)

/-- Model of the library call pd.concat(all_tables) of line 53, per the
documented pandas semantics for row-wise concatenation: when every frame
has the same column list the rows are stacked unchanged; otherwise the
columns are outer-joined in order of appearance and each row is filled
with missing-value markers at the columns its frame lacks. -/
def pd_concat (dfs : List DataFrame) : DataFrame :=
  let cols := dfs.foldl (fun acc df => unionCols acc df.columns) []
  if dfs.all (fun df => decide (df.columns = cols)) then
    { columns := cols, rows := dfs.flatMap DataFrame.rows }
  else
    { columns := cols, rows := dfs.flatMap (fun df => df.rows.map (alignRow df.columns cols)) }

/-- The no-tables fallback of lines 54-60: warn, extract the full text,
and wrap it as a one-column one-row frame when it is truthy, returning an
empty frame when the text is None or empty. -/
def excelFallback (d : PDFDoc) : Option DataFrame × List Msg :=
  let w := Msg.warning ("⚠️ No tables were found in the PDF. Converting the entire text content to an Excel file.")
  match convert_to_text d with
  | (some s, ms) =>
      if s = "" then (some { columns := [], rows := [] }, w :: ms)
      else (some { columns := ["Text Content from PDF"], rows := [[some s]] }, w :: ms)
  | (none, ms) => (some { columns := [], rows := [] }, w :: ms)

/-- Embedding of convert_to_excel (lines 33-60): on a pdfplumber failure
show an error and return None; otherwise concatenate the collected table
frames, falling back to the wrapped full text when no table survived the
truthiness guard. -/
def convert_to_excel (d : PDFDoc) : Option DataFrame × List Msg :=
  match d.plumber_err with
  | some e => (none, [Msg.error ("Failed to extract tables: " ++ e)])
  | none =>
      if (all_tables d).isEmpty then excelFallback d
      else (some (pd_concat (all_tables d)),
            [Msg.info ("✅ Tables found and extracted from the PDF.")])

/-- The literal page-break sentinel inserted by convert_to_word. -/
def PAGE_BREAK : String := "\n\n--- Page Break ---\n\n"

/-- The text-building loop of convert_to_word (lines 71-77): append each
page text and, when the page is not the last one, the sentinel. -/
def wordText (d : PDFDoc) : String :=
  (List.range d.pages.length).foldl
    (fun acc i =>
      let acc2 := acc ++ (d.pages.getD i dfltPage).text
      if i < d.pages.length - 1 then acc2 ++ PAGE_BREAK else acc2) ""

/-- Embedding of convert_to_word (lines 62-84): the resulting document is
its list of paragraphs, a single paragraph holding the built text; on a
fitz failure an error is shown and None returned. -/
def convert_to_word (d : PDFDoc) : Option (List String) × List Msg :=
  match d.fitz_err with
  | some e => (none, [Msg.error ("Failed to convert to Word: " ++ e)])
  | none => (some [wordText d], [])

/-- The user-selected output format (the st.radio choice). -/
inductive Format where
  | text | excel | word
deriving DecidableEq

/-- The fixed output file name chosen per branch of the handler. -/
def outputName : Format → String
  | .text => "output.txt"
  | .excel => "output.xlsx"
  | .word => "output.docx"

/-- A converter result as written to the output file. -/
inductive Artifact where
  | textFile (s : String)
  | excelFile (df : DataFrame)
  | wordFile (paragraphs : List String)
deriving DecidableEq

/-- The three conversion branches of the button handler (lines 108-129):
select the converter by format, and on a non-None result produce the
artifact and the success message; the word branch first shows its note. -/
def runConvert (d : PDFDoc) (fmt : Format) : Option Artifact × List Msg :=
  match fmt with
  | .text =>
      match convert_to_text d with
      | (some s, ms) => (some (Artifact.textFile s), ms ++ [Msg.success ("✅ Conversion to Text complete!")])
      | (none, ms) => (none, ms)
  | .excel =>
      match convert_to_excel d with
      | (some df, ms) => (some (Artifact.excelFile df), ms ++ [Msg.success ("✅ Conversion to Excel complete!")])
      | (none, ms) => (none, ms)
  | .word =>
      match convert_to_word d with
      | (some ps, ms) =>
          (some (Artifact.wordFile ps),
           Msg.info ("ℹ️ Please note: Word conversion currently only extracts text and does not preserve original formatting like images, fonts, or layout.")
             :: ms ++ [Msg.success ("✅ Conversion to Word complete!")])
      | (none, ms) =>
          (none,
           Msg.info ("ℹ️ Please note: Word conversion currently only extracts text and does not preserve original formatting like images, fonts, or layout.")
             :: ms)

/-- Filesystem model: the list of file names currently present. -/
def fsWrite (fs : List String) (f : String) : List String :=
  if fs.contains f then fs else f :: fs

def fsRemove (fs : List String) (f : String) : List String :=
  fs.filter (fun g => g != f)

/-- Observable outcome of one press of the Convert button. -/
structure HandlerResult where
  written : Option String
  msgs : List Msg
  fsFinal : List String
deriving DecidableEq

/-- Embedding of the button handler (lines 99-154): stage the upload to a
temporary file, run the selected conversion inside try/except, write the
output file only for a non-None result, and in the finally block remove
the temporary file and then the output file when they exist.  The
injectRaise flag models an unexpected exception thrown inside the try
block before any output write; the except clause catches it and shows the
generic error, never letting it escape the handler. -/
def handle (tmp : String) (d : PDFDoc) (fmt : Format) (injectRaise : Bool)
    (fs0 : List String) : HandlerResult :=
  let fs1 := fsWrite fs0 tmp
  let conv :=
    if injectRaise then
      (none, [Msg.error ("An unexpected error occurred during conversion. Please try again.")])
    else runConvert d fmt
  let fs2 := match conv.1 with
    | some _ => fsWrite fs1 (outputName fmt)
    | none => fs1
  let fs3 := if fs2.contains tmp then fsRemove fs2 tmp else fs2
  let fs4 := if (outputName fmt != "") && fs3.contains (outputName fmt) then
      fsRemove fs3 (outputName fmt)
    else fs3
  { written := match conv.1 with
      | some _ => some (outputName fmt)
      | none => none,
    msgs := conv.2,
    fsFinal := fs4 }

/-- The extractor invoked for a format fails: the library it opens the
document with raises, so the converter catches and returns None. -/
def extractorFails (d : PDFDoc) : Format → Bool
  | .text => d.fitz_err.isSome
  | .word => d.fitz_err.isSome
  | .excel => d.plumber_err.isSome

/-- One full run on an uploaded byte blob: the bytes are staged under a
fresh temporary path, read back from that path, parsed, and converted.
The parse function stands for the deterministic parsing libraries. -/
def runOnUpload (parse : List Nat → PDFDoc) (bytes : List Nat) (tmp : String)
    (fmt : Format) : Option Artifact × List Msg :=
  let fs : String → Option (List Nat) := fun p => if p = tmp then some bytes else none
  match fs tmp with
  | some b => runConvert (parse b) fmt
  | none => (none, [])

/-- Joining a list of page texts with the page-break sentinel between
consecutive pages: the intended reading of the convert_to_word loop. -/
def joinPageBreak : List String → String
  | [] => ""
  | [s] => s
  | s :: t :: r => s ++ PAGE_BREAK ++ joinPageBreak (t :: r)

/-- Number of (possibly overlapping) occurrences of pat inside s. -/
def countOccs (pat s : List Char) : Nat :=
  ((List.range (s.length + 1)).filter
    (fun i => decide ((s.drop i).take pat.length = pat))).length

/-- The document with every detected table that fails the truthiness
guard of line 44 removed. -/
def dropFalsyTables (d : PDFDoc) : PDFDoc :=
  { d with pages := d.pages.map (fun p => { p with tables := p.tables.filter truthyTable }) }

/-- The document with all detected tables removed. -/
def clearTables (d : PDFDoc) : PDFDoc :=
  { d with pages := d.pages.map (fun p => { p with tables := [] }) }

/-! Helper lemmas. -/

lemma foldl_range_getD_aux {α β : Type} (f : β → α → β) (dflt : α) :
    ∀ (l pre : List α) (b : β),
      (List.range' pre.length l.length).foldl
          (fun acc i => f acc ((pre ++ l).getD i dflt)) b
        = l.foldl f b := by
  intro l
  induction l with
  | nil =>
      intro pre b
      simp [List.range']
  | cons a l ih =>
      intro pre b
      simp only [List.length_cons]
      rw [List.range'_succ]
      simp only [List.foldl_cons]
      have hget : (pre ++ a :: l).getD pre.length dflt = a := by
        rw [List.getD_eq_getElem?_getD, List.getElem?_append_right (Nat.le_refl _)]
        simp
      rw [hget]
      have h2 := ih (pre ++ [a]) (f b a)
      simpa [List.append_assoc] using h2

lemma foldl_range_getD {α β : Type} (f : β → α → β) (dflt : α) (l : List α) (b : β) :
    (List.range l.length).foldl (fun acc i => f acc (l.getD i dflt)) b = l.foldl f b := by
  have h := foldl_range_getD_aux f dflt l [] b
  simpa [List.range_eq_range'] using h

/-- The convert_to_text loop computes the plain concatenation of the page
texts, with no separator. -/
lemma extractedText_eq (d : PDFDoc) :
    extractedText d = String.join (d.pages.map Page.text) := by
  unfold extractedText
  rw [foldl_range_getD (fun acc p => acc ++ p.text) dfltPage d.pages ""]
  simp [String.join, List.foldl_map]

lemma wordText_aux (full : List Page) :
    ∀ (l pre : List Page) (b : String), pre ++ l = full →
      (List.range' pre.length l.length).foldl
          (fun acc i =>
            let acc2 := acc ++ (full.getD i dfltPage).text
            if i < full.length - 1 then acc2 ++ PAGE_BREAK else acc2) b
        = b ++ joinPageBreak (l.map Page.text) := by
  intro l
  induction l with
  | nil =>
      intro pre b h
      simp [joinPageBreak, List.range']
  | cons a l ih =>
      intro pre b h
      subst h
      simp only [List.length_cons]
      rw [List.range'_succ]
      simp only [List.foldl_cons]
      have hget : ((pre ++ a :: l).getD pre.length dfltPage) = a := by
        rw [List.getD_eq_getElem?_getD, List.getElem?_append_right (Nat.le_refl _)]
        simp
      cases l with
      | nil =>
          have hcond : ¬ (pre.length < (pre ++ [a]).length - 1) := by
            simp
          simp [hget, hcond, joinPageBreak, List.range']
      | cons a2 l2 =>
          have hcond : pre.length < (pre ++ a :: a2 :: l2).length - 1 := by
            simp only [List.length_append, List.length_cons]
            omega
          have h2 := ih (pre ++ [a]) ((b ++ a.text) ++ PAGE_BREAK) (by simp)
          simp only [hget, hcond, if_pos]
          simpa [List.append_assoc, joinPageBreak, String.append_assoc] using h2

/-- The convert_to_word loop joins the page texts with the page-break
sentinel inserted after every page except the last. -/
lemma wordText_eq (d : PDFDoc) :
    wordText d = joinPageBreak (d.pages.map Page.text) := by
  unfold wordText
  have h := wordText_aux d.pages d.pages [] "" rfl
  simpa [List.range_eq_range'] using h

/-- Concatenation stacks rows: the row count of the concatenated frame is
the sum of the row counts of the frames, whichever alignment branch runs. -/
lemma pd_concat_rows_length (dfs : List DataFrame) :
    (pd_concat dfs).rows.length = (dfs.map (fun df => df.rows.length)).sum := by
  simp only [pd_concat]
  split
  case isTrue h =>
      simp [List.length_flatMap, Function.comp_def]
  case isFalse h =>
      simp [List.length_flatMap, Function.comp_def, List.length_map]

lemma unionCols_nil (cs : List String) : unionCols [] cs = cs := by
  simp [unionCols]

lemma firstIdx_eq_none_of_not_mem (cs : List String) (x : String) (h : x ∉ cs) :
    firstIdx cs x = none := by
  induction cs with
  | nil => rfl
  | cons c cs ih =>
      simp only [List.mem_cons, not_or] at h
      simp [firstIdx, Ne.symm h.1, ih h.2]

/-- A column name absent from the originating frame is filled with the
missing-value marker by the alignment step. -/
lemma alignRow_getD_of_not_mem (orig target : List String) (r : List (Option String))
    (j : Nat) (hj : j < target.length) (h : target[j] ∉ orig) :
    (alignRow orig target r).getD j none = none := by
  unfold alignRow
  rw [List.getD_eq_getElem?_getD, List.getElem?_map, List.getElem?_eq_getElem hj]
  simp [firstIdx_eq_none_of_not_mem _ _ h]

lemma contains_eq_false_of_not_mem (l : List String) (x : String) (h : x ∉ l) :
    l.contains x = false := by
  cases hc : l.contains x
  · rfl
  · exact absurd (List.elem_iff.mp hc) h

lemma not_mem_fsRemove_self (fs : List String) (f : String) : f ∉ fsRemove fs f := by
  intro h
  have hp := List.of_mem_filter h
  simp at hp

lemma fsRemove_subset (fs : List String) (f x : String) (h : x ∈ fsRemove fs f) : x ∈ fs :=
  List.mem_of_mem_filter h

lemma not_mem_ite_remove (fs : List String) (f : String) :
    f ∉ (if fs.contains f then fsRemove fs f else fs) := by
  by_cases hc : fs.contains f = true
  · rw [if_pos hc]
    exact not_mem_fsRemove_self fs f
  · rw [if_neg hc]
    intro h
    exact hc (List.elem_iff.mpr h)

lemma not_mem_after_cleanup (fs3 : List String) (tmp out : String) (h : tmp ∉ fs3) :
    tmp ∉ (if (out != "") && fs3.contains out then fsRemove fs3 out else fs3) := by
  split
  · intro hc
    exact h (fsRemove_subset _ _ _ hc)
  · exact h

/-- Text extraction only looks at the page texts and the fitz error. -/
lemma convert_to_text_congr (d d' : PDFDoc) (hf : d'.fitz_err = d.fitz_err)
    (hp : d'.pages.map Page.text = d.pages.map Page.text) :
    convert_to_text d' = convert_to_text d := by
  unfold convert_to_text
  rw [hf]
  cases d.fitz_err with
  | some e => rfl
  | none =>
      rw [extractedText_eq, extractedText_eq, hp]

lemma excelFallback_congr (d d' : PDFDoc) (h : convert_to_text d' = convert_to_text d) :
    excelFallback d' = excelFallback d := by
  unfold excelFallback
  rw [h]

lemma convert_to_excel_congr (d d' : PDFDoc) (hpl : d'.plumber_err = d.plumber_err)
    (hat : all_tables d' = all_tables d) (hct : convert_to_text d' = convert_to_text d) :
    convert_to_excel d' = convert_to_excel d := by
  unfold convert_to_excel
  rw [hpl, hat, excelFallback_congr d d' hct]

lemma pagesText_dropFalsy (d : PDFDoc) :
    (dropFalsyTables d).pages.map Page.text = d.pages.map Page.text := by
  simp [dropFalsyTables, List.map_map, Function.comp_def]

lemma pagesText_clearTables (d : PDFDoc) :
    (clearTables d).pages.map Page.text = d.pages.map Page.text := by
  simp [clearTables, List.map_map, Function.comp_def]

lemma all_tables_dropFalsy (d : PDFDoc) :
    all_tables (dropFalsyTables d) = all_tables d := by
  unfold all_tables detectedTables dropFalsyTables
  simp only [List.flatMap_map]
  rw [← List.filter_flatMap]
  simp [List.filter_filter]

lemma all_tables_clearTables (d : PDFDoc) :
    all_tables (clearTables d) = [] := by
  unfold all_tables detectedTables clearTables
  simp [List.flatMap_map]

lemma all_tables_eq_nil_of_all_falsy (d : PDFDoc)
    (h : (detectedTables d).all (fun t => !truthyTable t) = true) :
    all_tables d = [] := by
  unfold all_tables
  rw [List.filter_eq_nil_iff.mpr]
  · rfl
  · intro t ht
    have := List.all_eq_true.mp h t ht
    simp at this
    simp [this]

/-- When some table survived the guard, convert_to_excel returns the
concatenation of the collected frames. -/
lemma convert_to_excel_of_tables (d : PDFDoc) (hp : d.plumber_err = none)
    (hne : (all_tables d).isEmpty = false) :
    (convert_to_excel d).1 = some (pd_concat (all_tables d)) := by
  simp [convert_to_excel, hp, hne]

/-! Claim theorems. -/

/-- A two-page document with plain text and no tables. -/
def helloDoc : PDFDoc :=
  { pages := [{ text := "Hello", tables := [] }, { text := "World", tables := [] }],
    fitz_err := none, plumber_err := none }

/-- C6: for every PDF that fitz opens, plain-text conversion returns
exactly the concatenation of the page texts in page order, with no
separator between pages. -/
theorem c6_text_concat_no_separator (d : PDFDoc) (hf : d.fitz_err = none) :
    (convert_to_text d).1 = some (String.join (d.pages.map Page.text)) := by
  simp [convert_to_text, hf, extractedText_eq]

/-- C6 witness: the two-page Hello/World document yields HelloWorld. -/
theorem c6_text_concat_no_separator_witness :
    (convert_to_text helloDoc).1 = some ("HelloWorld") := by
  rw [c6_text_concat_no_separator helloDoc rfl]
  rfl

/-- A one-page document whose page text is the page-break sentinel itself. -/
def c2ex : PDFDoc :=
  { pages := [{ text := PAGE_BREAK, tables := [] }], fitz_err := none, plumber_err := none }

/-- C2 counterexample: for the one-page document whose text is the
sentinel string, the built text contains one occurrence of the sentinel
although N - 1 = 0, so the occurrence count does not equal N - 1. -/
theorem c2_counterexample :
    (convert_to_word c2ex).1 = some [PAGE_BREAK] ∧
    countOccs PAGE_BREAK.data (wordText c2ex).data = 1 ∧
    c2ex.pages.length - 1 = 0 ∧
    decide (countOccs PAGE_BREAK.data (wordText c2ex).data = c2ex.pages.length - 1) = false := by
  decide

/-- C2 amended: for every PDF that fitz opens, the document-building text
is the page texts joined with the sentinel inserted after every page
except the last (no sentinel inserted for a one-page document); the
occurrence count of the sentinel equals N - 1 only when the page texts do
not themselves produce sentinel occurrences. -/
theorem c2_page_break_insertion (d : PDFDoc) (hf : d.fitz_err = none) :
    (convert_to_word d).1 = some [joinPageBreak (d.pages.map Page.text)] := by
  simp [convert_to_word, hf, wordText_eq]

/-- C2 witness: the two-page Hello/World document builds the text with
one sentinel between the pages. -/
theorem c2_page_break_insertion_witness :
    (convert_to_word helloDoc).1 = some ["Hello\n\n--- Page Break ---\n\nWorld"] := by
  rw [c2_page_break_insertion helloDoc rfl]
  rfl

/-- A one-page document with empty text and no tables. -/
def c1ex : PDFDoc :=
  { pages := [{ text := "", tables := [] }], fitz_err := none, plumber_err := none }

/-- C1 counterexample: for a PDF with zero detected tables whose full
text is empty, the fallback produces the empty zero-column frame, not the
one-column one-row frame the claim demands. -/
theorem c1_counterexample :
    detectedTables c1ex = [] ∧
    (convert_to_excel c1ex).1 = some { columns := [], rows := [] } ∧
    decide ((convert_to_excel c1ex).1
      = some { columns := ["Text Content from PDF"],
               rows := [[some (extractedText c1ex)]] }) = false := by
  decide

/-- C1 amended: for every PDF with zero detected tables, when text
extraction succeeds and yields a nonempty string, the fallback produces
the frame with the single header Text Content from PDF and one data row
holding the full extracted text. -/
theorem c1_fallback_text_frame (d : PDFDoc) (hp : d.plumber_err = none)
    (hd : detectedTables d = []) (hf : d.fitz_err = none) (ht : extractedText d ≠ "") :
    (convert_to_excel d).1
      = some { columns := ["Text Content from PDF"], rows := [[some (extractedText d)]] } := by
  have hat : all_tables d = [] := by
    unfold all_tables
    rw [hd]
    rfl
  simp only [convert_to_excel, hp, hat, List.isEmpty_nil, if_true]
  simp only [excelFallback, convert_to_text, hf]
  rw [if_neg ht]

/-- A one-page document with text plain text and no tables. -/
def plainDoc : PDFDoc :=
  { pages := [{ text := "plain text", tables := [] }], fitz_err := none, plumber_err := none }

/-- C1 witness: the no-tables document with text plain text produces the
one-column wrapped frame. -/
theorem c1_fallback_text_frame_witness :
    (convert_to_excel plainDoc).1
      = some { columns := ["Text Content from PDF"], rows := [[some (extractedText plainDoc)]] } :=
  c1_fallback_text_frame plainDoc rfl rfl rfl (by decide)

/-- C3: for every conversion request whose extractor fails, the handler
records no written output file, shows an error message, and shows no
success message; the handler is a total function, so the failure never
escapes the request boundary. -/
theorem c3_extractor_failure_no_output (tmp : String) (d : PDFDoc) (fmt : Format)
    (fs0 : List String) (h : extractorFails d fmt = true) :
    (handle tmp d fmt false fs0).written = none ∧
    ((handle tmp d fmt false fs0).msgs.any Msg.isError) = true ∧
    ((handle tmp d fmt false fs0).msgs.any Msg.isSuccess) = false := by
  cases fmt with
  | text =>
      simp only [extractorFails] at h
      obtain ⟨e, he⟩ := Option.isSome_iff_exists.mp h
      simp [handle, runConvert, convert_to_text, he, Msg.isError, Msg.isSuccess]
  | excel =>
      simp only [extractorFails] at h
      obtain ⟨e, he⟩ := Option.isSome_iff_exists.mp h
      simp [handle, runConvert, convert_to_excel, he, Msg.isError, Msg.isSuccess]
  | word =>
      simp only [extractorFails] at h
      obtain ⟨e, he⟩ := Option.isSome_iff_exists.mp h
      simp [handle, runConvert, convert_to_word, he, Msg.isError, Msg.isSuccess]

/-- A document both libraries fail to open. -/
def badDoc : PDFDoc :=
  { pages := [], fitz_err := some ("boom"), plumber_err := some ("boom") }

/-- C3 witness: a text conversion on a document fitz cannot open writes
nothing, shows an error and no success message. -/
theorem c3_extractor_failure_no_output_witness :
    (handle ("input.pdf") badDoc Format.text false []).written = none ∧
    ((handle ("input.pdf") badDoc Format.text false []).msgs.any Msg.isError) = true ∧
    ((handle ("input.pdf") badDoc Format.text false []).msgs.any Msg.isSuccess) = false :=
  c3_extractor_failure_no_output ("input.pdf") badDoc Format.text [] rfl

/-- C5: on every exit path of the handler, successful conversion,
extractor failure, or an injected unexpected exception, the staged
temporary input file is absent from the filesystem afterwards. -/
theorem c5_temp_file_absent (tmp : String) (d : PDFDoc) (fmt : Format)
    (injectRaise : Bool) (fs0 : List String) :
    ((handle tmp d fmt injectRaise fs0).fsFinal).contains tmp = false := by
  simp only [handle]
  exact contains_eq_false_of_not_mem _ _
    (not_mem_after_cleanup _ tmp _ (not_mem_ite_remove _ tmp))

/-- C8: running the conversion twice on the same uploaded bytes yields
identical results, whatever distinct temporary paths the two runs stage
the bytes under, for every format and every deterministic parse. -/
theorem c8_deterministic_conversion (parse : List Nat → PDFDoc) (bytes : List Nat)
    (tmp1 tmp2 : String) (fmt : Format) :
    runOnUpload parse bytes tmp1 fmt = runOnUpload parse bytes tmp2 fmt := by
  simp [runOnUpload]

/-- C10: when no table is detected and the fallback text is None or
empty, convert_to_excel returns the empty frame rather than None, so the
handler writes output.xlsx and reports success. -/
theorem c10_empty_fallback_success (tmp : String) (d : PDFDoc) (fs0 : List String)
    (hp : d.plumber_err = none) (hd : detectedTables d = [])
    (ht : (convert_to_text d).1 = none ∨ (convert_to_text d).1 = some "") :
    (convert_to_excel d).1 = some { columns := [], rows := [] } ∧
    (handle tmp d Format.excel false fs0).written = some ("output.xlsx") ∧
    ((handle tmp d Format.excel false fs0).msgs.any Msg.isSuccess) = true := by
  have hat : all_tables d = [] := by
    unfold all_tables
    rw [hd]
    rfl
  have hex : (convert_to_excel d).1 = some { columns := [], rows := [] } := by
    simp only [convert_to_excel, hp, hat, List.isEmpty_nil, if_true]
    rcases hpair : convert_to_text d with ⟨o, ms⟩
    have ho : o = none ∨ o = some "" := by
      rcases ht with h1 | h1
      · left
        rw [hpair] at h1
        exact h1
      · right
        rw [hpair] at h1
        exact h1
    rcases ho with h | h
    · subst h
      simp [excelFallback, hpair]
    · subst h
      simp [excelFallback, hpair]
  refine ⟨hex, ?_, ?_⟩
  · rcases hpair2 : convert_to_excel d with ⟨o2, ms2⟩
    rw [hpair2] at hex
    have ho2 : o2 = some { columns := [], rows := [] } := hex
    subst ho2
    simp [handle, runConvert, hpair2, outputName]
  · rcases hpair2 : convert_to_excel d with ⟨o2, ms2⟩
    rw [hpair2] at hex
    have ho2 : o2 = some { columns := [], rows := [] } := hex
    subst ho2
    simp [handle, runConvert, hpair2, Msg.isSuccess]

/-- A pageless document that fitz fails to open but pdfplumber scans. -/
def noTextDoc : PDFDoc :=
  { pages := [], fitz_err := some ("broken"), plumber_err := none }

/-- C10 witness: with no tables and a failed text extraction the handler
still writes output.xlsx and reports success over the empty frame. -/
theorem c10_empty_fallback_success_witness :
    (convert_to_excel noTextDoc).1 = some { columns := [], rows := [] } ∧
    (handle ("input.pdf") noTextDoc Format.excel false []).written = some ("output.xlsx") ∧
    ((handle ("input.pdf") noTextDoc Format.excel false []).msgs.any Msg.isSuccess) = true :=
  c10_empty_fallback_success ("input.pdf") noTextDoc [] rfl rfl (Or.inl rfl)

/-- A one-page document with one proper table and one detected table
whose first row is the empty list, so the guard of line 44 skips it. -/
def c4ex : PDFDoc :=
  { pages := [{ text := "x", tables := [[["A"], ["1"]], [[], ["z"]]] }],
    fitz_err := none, plumber_err := none }

/-- C4 counterexample: a detected table whose first row is falsy is
skipped, so the result holds one data row while the sum of data-row
counts over all detected tables is two; the claimed equality fails. -/
theorem c4_counterexample :
    ((convert_to_excel c4ex).1.map (fun df => df.rows.length)) = some 1 ∧
    (((detectedTables c4ex).map (fun t => t.length - 1)).sum) = 2 ∧
    decide ((convert_to_excel c4ex).1.map (fun df => df.rows.length)
      = some (((detectedTables c4ex).map (fun t => t.length - 1)).sum)) = false := by
  decide

/-- C4 amended: for every PDF with at least one detected table passing
the guard of line 44, the conversion returns the concatenation of the
per-table frames, in page order then within-page detection order, and its
total data-row count equals the sum of data-row counts over the detected
tables that pass the guard. -/
theorem c4_row_count_sum (d : PDFDoc) (hp : d.plumber_err = none)
    (hne : (all_tables d).isEmpty = false) :
    (convert_to_excel d).1 = some (pd_concat (all_tables d)) ∧
    (pd_concat (all_tables d)).rows.length
      = (((detectedTables d).filter truthyTable).map (fun t => t.length - 1)).sum := by
  refine ⟨convert_to_excel_of_tables d hp hne, ?_⟩
  rw [pd_concat_rows_length]
  unfold all_tables
  rw [List.map_map]
  congr 1
  apply List.map_congr_left
  intro t ht
  simp [pd_DataFrame_of_table, Function.comp_def, List.length_tail]

/-- A one-page document holding the single table of the spec scenario. -/
def tableDoc : PDFDoc :=
  { pages := [{ text := "", tables := [[["A", "B"], ["1", "2"]]] }],
    fitz_err := none, plumber_err := none }

/-- C4 witness: the single two-row table yields one data row, the sum of
data-row counts over the surviving tables. -/
theorem c4_row_count_sum_witness :
    (convert_to_excel tableDoc).1 = some (pd_concat (all_tables tableDoc)) ∧
    (pd_concat (all_tables tableDoc)).rows.length
      = (((detectedTables tableDoc).filter truthyTable).map (fun t => t.length - 1)).sum :=
  c4_row_count_sum tableDoc rfl rfl

/-- C9: a detected table that fails the guard of line 44 contributes
nothing, so removing all guard-failing tables leaves the spreadsheet
conversion unchanged; and when every detected table fails the guard the
conversion behaves exactly as if zero tables had been detected. -/
theorem c9_falsy_tables_skipped :
    (∀ d : PDFDoc, convert_to_excel (dropFalsyTables d) = convert_to_excel d) ∧
    (∀ d : PDFDoc, (detectedTables d).all (fun t => !truthyTable t) = true →
      convert_to_excel d = convert_to_excel (clearTables d)) := by
  constructor
  · intro d
    exact convert_to_excel_congr d (dropFalsyTables d) rfl (all_tables_dropFalsy d)
      (convert_to_text_congr d (dropFalsyTables d) rfl (pagesText_dropFalsy d))
  · intro d h
    have hat : all_tables (clearTables d) = all_tables d := by
      rw [all_tables_clearTables d, all_tables_eq_nil_of_all_falsy d h]
    exact (convert_to_excel_congr d (clearTables d) rfl hat
      (convert_to_text_congr d (clearTables d) rfl (pagesText_clearTables d))).symm

/-- A one-page document whose only detected tables are falsy: the empty
table and a table whose first row is empty. -/
def falsyDoc : PDFDoc :=
  { pages := [{ text := "t", tables := [[], [[]]] }], fitz_err := none, plumber_err := none }

/-- C9 witness: on the document whose detected tables are all falsy,
dropping them changes nothing and the conversion equals the zero-table
conversion. -/
theorem c9_falsy_tables_skipped_witness :
    convert_to_excel (dropFalsyTables falsyDoc) = convert_to_excel falsyDoc ∧
    convert_to_excel falsyDoc = convert_to_excel (clearTables falsyDoc) :=
  ⟨c9_falsy_tables_skipped.1 falsyDoc, c9_falsy_tables_skipped.2 falsyDoc (by decide)⟩

/-- Concatenating two frames with differing column lists outer-joins the
columns and realigns every row, filling absent columns with the marker. -/
lemma pd_concat_two_mismatch (df1 df2 : DataFrame) (hdiff : df1.columns ≠ df2.columns) :
    pd_concat [df1, df2]
      = { columns := unionCols df1.columns df2.columns,
          rows := df1.rows.map (alignRow df1.columns (unionCols df1.columns df2.columns))
               ++ df2.rows.map (alignRow df2.columns (unionCols df1.columns df2.columns)) } := by
  have hall : ([df1, df2].all
      (fun df => decide (df.columns = unionCols df1.columns df2.columns))) = false := by
    by_cases e1 : df1.columns = unionCols df1.columns df2.columns
    · have e2 : df2.columns ≠ unionCols df1.columns df2.columns := by
        intro e2
        exact hdiff (e1.trans e2.symm)
      simp [e2]
    · simp [e1]
  simp only [pd_concat, List.foldl_cons, List.foldl_nil, unionCols_nil]
  rw [hall]
  simp

/-- Concatenating a single frame returns it unchanged, duplicate column
names and all. -/
lemma pd_concat_single (df : DataFrame) : pd_concat [df] = df := by
  simp only [pd_concat, List.foldl_cons, List.foldl_nil, unionCols_nil]
  simp

/-- A one-page document carrying exactly two detected tables. -/
def twoTableDoc (t1 t2 : List (List String)) : PDFDoc :=
  { pages := [{ text := "", tables := [t1, t2] }], fitz_err := none, plumber_err := none }

/-- A one-page document carrying exactly one detected table. -/
def oneTableDoc (t : List (List String)) : PDFDoc :=
  { pages := [{ text := "", tables := [t] }], fitz_err := none, plumber_err := none }

/-- C7: concatenation of two detected tables with differing header rows
still proceeds and outer-joins their headers, every aligned row is filled
with the missing-value marker at each column absent from its originating
table, and the header row of a table is kept verbatim, duplicates
included, with no deduplication. -/
theorem c7_mismatched_headers_concat :
    (∀ t1 t2 : List (List String), truthyTable t1 = true → truthyTable t2 = true →
      t1.headD [] ≠ t2.headD [] →
      (convert_to_excel (twoTableDoc t1 t2)).1
        = some { columns := unionCols (t1.headD []) (t2.headD []),
                 rows := (pd_DataFrame_of_table t1).rows.map
                           (alignRow (t1.headD []) (unionCols (t1.headD []) (t2.headD [])))
                      ++ (pd_DataFrame_of_table t2).rows.map
                           (alignRow (t2.headD []) (unionCols (t1.headD []) (t2.headD []))) }) ∧
    (∀ (orig target : List String) (r : List (Option String)) (j : Nat)
        (hj : j < target.length), target[j] ∉ orig →
      (alignRow orig target r).getD j none = none) ∧
    (∀ t : List (List String), truthyTable t = true →
      (convert_to_excel (oneTableDoc t)).1 = some (pd_DataFrame_of_table t)) := by
  refine ⟨?_, ?_, ?_⟩
  · intro t1 t2 h1 h2 hdiff
    have hat : all_tables (twoTableDoc t1 t2)
        = [pd_DataFrame_of_table t1, pd_DataFrame_of_table t2] := by
      unfold all_tables detectedTables twoTableDoc
      simp [h1, h2]
    have hie : (all_tables (twoTableDoc t1 t2)).isEmpty = false := by
      rw [hat]
      rfl
    have hdf : (pd_DataFrame_of_table t1).columns ≠ (pd_DataFrame_of_table t2).columns := by
      simpa [pd_DataFrame_of_table] using hdiff
    rw [convert_to_excel_of_tables _ rfl hie, hat, pd_concat_two_mismatch _ _ hdf]
    rfl
  · intro orig target r j hj hmem
    exact alignRow_getD_of_not_mem orig target r j hj hmem
  · intro t h
    have hat : all_tables (oneTableDoc t) = [pd_DataFrame_of_table t] := by
      unfold all_tables detectedTables oneTableDoc
      simp [h]
    have hie : (all_tables (oneTableDoc t)).isEmpty = false := by
      rw [hat]
      rfl
    rw [convert_to_excel_of_tables _ rfl hie, hat, pd_concat_single]

/-- C7 witness: the two tables with headers A,B and B,C concatenate into
the outer-joined frame with markers at the absent columns, a marker fills
column C for a row of the first table, and a single table keeps its
header verbatim. -/
theorem c7_mismatched_headers_concat_witness :
    (convert_to_excel (twoTableDoc [["A", "B"], ["1", "2"]] [["B", "C"], ["3", "4"]])).1
      = some { columns := ["A", "B", "C"],
               rows := [[some "1", some "2", none], [none, some "3", some "4"]] } ∧
    (alignRow ["A", "B"] ["A", "B", "C"] [some "1", some "2"]).getD 2 none = none ∧
    (convert_to_excel (oneTableDoc [["A", "B"], ["1", "2"]])).1
      = some (pd_DataFrame_of_table [["A", "B"], ["1", "2"]]) := by
  refine ⟨?_, ?_, ?_⟩
  · rw [c7_mismatched_headers_concat.1 [["A", "B"], ["1", "2"]] [["B", "C"], ["3", "4"]]
      (by decide) (by decide) (by decide)]
    decide
  · exact c7_mismatched_headers_concat.2.1 ["A", "B"] ["A", "B", "C"]
      [some "1", some "2"] 2 (by decide) (by decide)
  · exact c7_mismatched_headers_concat.2.2 [["A", "B"], ["1", "2"]] (by decide)
